import Mathlib

/-!
Verification of the operationalization notebook `als_movie_o16n.ipynb`.

The notebook trains an ALS recommender and deploys a scoring service.  The
parts embedded here are the parts the specification makes claims about:

* the generated scoring script (`init` / `run`) with its JSON decoding,
  its single Cosmos DB `ReadDocument` lookup, and its exception handling;
* the recommendation-record write (`recommendForAllUsers(10)` output cast
  to `(id, MovieId list)` records, written with mode `overwrite` and
  `Upsert: true`);
* the Cosmos DB database/collection provisioning step and its
  existence-conditioned branching, and the web-service deployment
  fallback;
* the blocking pipeline order;
* the resource-name computation (`account_name`);
* the train/test random split and the `top_all` seen-item exclusion.

Python values are embedded shallowly: JSON values are an inductive type,
Python exceptions are an error type carried in `Except`, the document
store is an association list keyed by document link, and string
manipulation is done on `List Char` where proofs need it.
-/

namespace RecoO16n

/-- JSON values as produced by Python's `json.loads`: objects are kept as
ordered field lists, numbers are restricted to integers (the values the
notebook stores and sends are strings, string lists and integer ids). -/
inductive Json where
  | null
  | bool (b : Bool)
  | num (n : Int)
  | str (s : String)
  | arr (elems : List Json)
  | obj (fields : List (String × Json))

/-- Python exceptions that the scoring script can encounter: JSON decode
errors (`ValueError`/`JSONDecodeError`), `TypeError`, `KeyError`,
`IndexError`, `NameError` (unbound global `client`), and HTTP failures
raised by the document client. -/
inductive PyErr where
  | valueError (msg : String)
  | typeError (msg : String)
  | keyError (key : String)
  | indexError (msg : String)
  | nameError (name : String)
  | httpFailure (msg : String)
deriving DecidableEq

/-- Python `str(e)` for an exception: `KeyError` stringifies to the repr
of the missing key, the others to their message. -/
def pyErrStr : PyErr → String
  | .valueError msg => msg
  | .typeError msg => msg
  | .keyError key => "'" ++ key ++ "'"
  | .indexError msg => msg
  | .nameError name => "name '" ++ name ++ "' is not defined"
  | .httpFailure msg => msg

/-- Skip JSON whitespace. -/
def skipWs : List Char → List Char
  | [] => []
  | c :: rest =>
    if c = ' ' ∨ c = '\n' ∨ c = '\t' ∨ c = '\r' then skipWs rest else c :: rest

/-- Scan the body of a JSON string literal (opening quote already
consumed), handling the escape sequences the notebook's data uses. -/
def scanStringChars : List Char → String → Except PyErr (String × List Char)
  | [], _ => .error (.valueError "Unterminated string")
  | '"' :: rest, acc => .ok (acc, rest)
  | '\\' :: c :: rest, acc =>
    let d : Char :=
      if c = 'n' then '\n'
      else if c = 't' then '\t'
      else if c = 'r' then '\r'
      else c
    scanStringChars rest (acc.push d)
  | ['\\'], _ => .error (.valueError "Unterminated string escape")
  | c :: rest, acc => scanStringChars rest (acc.push c)

/-- Scan a run of decimal digits. -/
def scanDigits : List Char → String → String × List Char
  | [], acc => (acc, [])
  | c :: rest, acc =>
    if c.isDigit then scanDigits rest (acc.push c) else (acc, c :: rest)

/-- Parse the digits of a natural number literal. -/
def natOfDigits (s : String) : Nat :=
  s.data.foldl (fun n c => 10 * n + (c.toNat - '0'.toNat)) 0

mutual

/-- Recursive-descent reading of one JSON value, fuel-bounded.  Stands in
for the grammar walked by Python's `json.loads`. -/
def parseVal : Nat → List Char → Except PyErr (Json × List Char)
  | 0, _ => .error (.valueError "Expecting value")
  | fuel + 1, cs =>
    match skipWs cs with
    | '"' :: rest => do
      let (s, r) ← scanStringChars rest ""
      pure (Json.str s, r)
    | '[' :: rest =>
      match skipWs rest with
      | ']' :: r2 => .ok (Json.arr [], r2)
      | r2 => do
        let (elems, r3) ← parseElems fuel r2 []
        pure (Json.arr elems, r3)
    | '\x7b' :: rest =>
      match skipWs rest with
      | '\x7d' :: r2 => .ok (Json.obj [], r2)
      | r2 => do
        let (fields, r3) ← parseFields fuel r2 []
        pure (Json.obj fields, r3)
    | 'n' :: 'u' :: 'l' :: 'l' :: r => .ok (Json.null, r)
    | 't' :: 'r' :: 'u' :: 'e' :: r => .ok (Json.bool true, r)
    | 'f' :: 'a' :: 'l' :: 's' :: 'e' :: r => .ok (Json.bool false, r)
    | '-' :: c :: rest =>
      if c.isDigit then
        let (ds, r) := scanDigits (c :: rest) ""
        .ok (Json.num (-(natOfDigits ds : Int)), r)
      else .error (.valueError "Expecting value")
    | c :: rest =>
      if c.isDigit then
        let (ds, r) := scanDigits (c :: rest) ""
        .ok (Json.num (natOfDigits ds : Int), r)
      else .error (.valueError "Expecting value")
    | [] => .error (.valueError "Expecting value")

/-- Comma-separated array elements, terminated by a closing bracket. -/
def parseElems : Nat → List Char → List Json → Except PyErr (List Json × List Char)
  | 0, _, _ => .error (.valueError "Expecting value")
  | fuel + 1, cs, acc => do
    let (v, r) ← parseVal fuel cs
    match skipWs r with
    | ',' :: r2 => parseElems fuel r2 (acc ++ [v])
    | ']' :: r2 => .ok (acc ++ [v], r2)
    | _ => .error (.valueError "Expecting comma delimiter")

/-- Comma-separated object fields, terminated by a closing brace. -/
def parseFields : Nat → List Char → List (String × Json) →
    Except PyErr (List (String × Json) × List Char)
  | 0, _, _ => .error (.valueError "Expecting value")
  | fuel + 1, cs, acc =>
    match skipWs cs with
    | '"' :: rest => do
      let (k, r) ← scanStringChars rest ""
      match skipWs r with
      | ':' :: r2 => do
        let (v, r3) ← parseVal fuel r2
        match skipWs r3 with
        | ',' :: r4 => parseFields fuel r4 (acc ++ [(k, v)])
        | '\x7d' :: r4 => .ok (acc ++ [(k, v)], r4)
        | _ => .error (.valueError "Expecting comma delimiter")
      | _ => .error (.valueError "Expecting colon delimiter")
    | _ => .error (.valueError "Expecting property name")

end

/-- Python `json.loads`: parse one JSON value and require only trailing
whitespace after it. -/
def json_loads (s : String) : Except PyErr Json :=
  match parseVal (2 * s.length + 2) s.data with
  | .error e => .error e
  | .ok (v, rest) =>
    match skipWs rest with
    | [] => .ok v
    | _ => .error (.valueError "Extra data")

mutual

/-- Python `repr` of a decoded JSON value (dicts print with single-quoted
keys, lists with brackets), as used by `str(result)` on a document. -/
def pyRepr : Json → String
  | .null => "None"
  | .bool true => "True"
  | .bool false => "False"
  | .num n => toString n
  | .str s => "'" ++ s ++ "'"
  | .arr xs => "[" ++ pyReprElems xs ++ "]"
  | .obj fs => "\x7b" ++ pyReprFields fs ++ "\x7d"

/-- Comma-separated `repr`s of list elements. -/
def pyReprElems : List Json → String
  | [] => ""
  | [x] => pyRepr x
  | x :: y :: rest => pyRepr x ++ ", " ++ pyReprElems (y :: rest)

/-- Comma-separated `repr`s of dict entries. -/
def pyReprFields : List (String × Json) → String
  | [] => ""
  | [(k, v)] => "'" ++ k ++ "': " ++ pyRepr v
  | (k, v) :: f :: rest => "'" ++ k ++ "': " ++ pyRepr v ++ ", " ++ pyReprFields (f :: rest)

end

/-- Python `str` of a decoded JSON value: a `str` prints itself, anything
else prints its `repr`. -/
def pyStr : Json → String
  | .str s => s
  | .null => pyRepr .null
  | .bool b => pyRepr (.bool b)
  | .num n => pyRepr (.num n)
  | .arr xs => pyRepr (.arr xs)
  | .obj fs => pyRepr (.obj fs)

/-- JSON string escaping for `json.dumps` on a `str` value. -/
def jsonEscapeChar (c : Char) : String :=
  if c = '"' then "\\\""
  else if c = '\\' then "\\\\"
  else if c = '\n' then "\\n"
  else if c = '\t' then "\\t"
  else if c = '\r' then "\\r"
  else String.singleton c

/-- Python `json.dumps` applied to a `str` value, which is the only shape
the scoring script ever passes to it (`json.dumps(str(result))`). -/
def json_dumps_str (s : String) : String :=
  "\"" ++ s.data.foldl (fun acc c => acc ++ jsonEscapeChar c) "" ++ "\""

/-- Python subscript `x[0]` on a decoded JSON value: lists index their
elements (IndexError when empty), strings index their characters, dicts
raise KeyError, the rest TypeError. -/
def pyIndexZero : Json → Except PyErr Json
  | .arr [] => .error (.indexError "list index out of range")
  | .arr (x :: _) => .ok x
  | .str s =>
    match s.data with
    | [] => .error (.indexError "string index out of range")
    | c :: _ => .ok (.str (String.singleton c))
  | .obj _ => .error (.keyError "0")
  | _ => .error (.typeError "object is not subscriptable")

/-- Python `json.loads` argument check: the argument must be a `str`. -/
def asLoadsArg : Json → Except PyErr String
  | .str s => .ok s
  | _ => .error (.typeError "the JSON object must be str, bytes or bytearray")

/-- Python subscript `x[key]` for a string key: dict lookup raising
KeyError when absent, TypeError on non-dict values. -/
def pyGetItem (j : Json) (key : String) : Except PyErr Json :=
  match j with
  | .obj fields =>
    match fields.lookup key with
    | some v => .ok v
    | none => .error (.keyError key)
  | .str _ => .error (.typeError "string indices must be integers")
  | .arr _ => .error (.typeError "list indices must be integers or slices, not str")
  | _ => .error (.typeError "object is not subscriptable")

/-- Notebook cell: `algo = "als"`. -/
def algo : String := "als"

/-- Notebook cell: `DOCUMENTDB_DATABASE = "recommendations"`. -/
def DOCUMENTDB_DATABASE : String := "recommendations"

/-- Notebook cell: `DOCUMENTDB_COLLECTION = "user_recommendations_" + algo`. -/
def DOCUMENTDB_COLLECTION : String := "user_recommendations_" ++ algo

/-- The scoring script's document link template
`dbs/.../colls/.../docs/` with the id formatted in (after the
`DOCUMENTDB_DATABASE` / `DOCUMENTDB_COLLECTION` placeholders were
substituted into the script text). -/
def documentLink (id : String) : String :=
  "dbs/" ++ DOCUMENTDB_DATABASE ++ "/colls/" ++ DOCUMENTDB_COLLECTION ++ "/docs/" ++ id

/-- The identifier extraction in the scoring script's `run`:
`id = json.loads(json.loads(input_json)[0])['id']`. -/
def extractId (input_json : String) : Except PyErr Json := do
  let outer ← json_loads input_json
  let first ← pyIndexZero outer
  let s ← asLoadsArg first
  let inner ← json_loads s
  pyGetItem inner "id"

/-- The Cosmos collection as reachable through the document client:
documents keyed by their document link. -/
abbrev DocStore := List (String × Json)

/-- `client.ReadDocument(document_link, options)`: one point lookup; a
missing document surfaces as an HTTP error raised by the client. -/
def ReadDocument (store : DocStore) (link : String) : Except PyErr Json :=
  match store.lookup link with
  | some d => .ok d
  | none => .error (.httpFailure ("DocumentNotFound: " ++ link))

/-- Operations issued against the document store. -/
inductive StoreOp where
  | readDocument (link : String) (partitionKey : String)
deriving DecidableEq

/-- The globals the scoring script's `run` reads: whether `init` managed
to bind the global `client`, and the store reachable through it. -/
structure ScoreGlobals where
  clientReady : Bool
  store : DocStore

/-- The `try` body of the scoring script's `run`, together with the trace
of store operations it performs.  Mirrors
`id = json.loads(json.loads(input_json)[0])['id']`, the `options` dict
holding `str(id)` as partition key, the formatted `document_link`, and
`result = client.ReadDocument(document_link, options)`; the `query`
string built by the script is dead code and is not modelled.  When
`init` failed to bind the global `client`, the call on `client` raises
`NameError` before any store operation. -/
def runInner (g : ScoreGlobals) (input_json : String) :
    Except PyErr Json × List StoreOp :=
  match extractId input_json with
  | .error e => (.error e, [])
  | .ok idv =>
    if g.clientReady then
      let link := documentLink (pyStr idv)
      (ReadDocument g.store link, [.readDocument link (pyStr idv)])
    else
      (.error (.nameError "client"), [])

/-- The scoring script's `run`: the `try` body is `runInner`; on any
exception `e` the handler sets `result = str(e)`; either way the
function returns `json.dumps(str(result))`. -/
def run (g : ScoreGlobals) (input_json : String) : String :=
  match (runInner g input_json).1 with
  | .ok result => json_dumps_str (pyStr result)
  | .error e => json_dumps_str (pyErrStr e)

/-- The store operations `run` performs. -/
def runOps (g : ScoreGlobals) (input_json : String) : List StoreOp :=
  (runInner g input_json).2

/-- Outcome of the external calls made inside `init`'s `try` block:
`document_client.DocumentClient(HOST, ...)` and
`client.ReadCollection(collection_link)`, each of which may raise. -/
structure InitEnv where
  documentClient : Except PyErr Unit
  readCollection : Except PyErr Json

/-- Value left in the global `collection` by `init`: either the
collection object, or — in the `except` branch — the caught exception. -/
inductive CollVal where
  | coll (c : Json)
  | caught (e : PyErr)

/-- The scoring script's `init`: builds the client and reads the
collection inside `try`; on any exception `e` the handler stores the
exception itself in the global `collection` and returns normally.  The
result is the pair of globals (`client` bound?, `collection`). -/
def init (env : InitEnv) : Bool × CollVal :=
  match env.documentClient with
  | .error e => (false, .caught e)
  | .ok _ =>
    match env.readCollection with
    | .error e => (true, .caught e)
    | .ok c => (true, .coll c)

/-- The demonstration client's request body: the Python literal
evaluating to `["<a JSON-encoded object string with field id = 496>"]`. -/
def input_data : String := "[\"\x7b\\\"id\\\":\\\"496\\\"\x7d\"]"

example : json_loads input_data = .ok (.arr [.str "\x7b\"id\":\"496\"\x7d"]) := rfl

example : extractId input_data = .ok (.str "496") := rfl

example :
    runOps ⟨true, []⟩ input_data =
      [.readDocument "dbs/recommendations/colls/user_recommendations_als/docs/496" "496"] := rfl

/-- C1: whenever the request decodes to the client's shape — the input is
decoded, its first element is taken, that element is decoded again as
JSON and its 'id' field is read (`extractId`) — `run` performs exactly
one `ReadDocument` point lookup against the store, keyed by that
identifier (the document link and partition key both carry `str(id)`). -/
theorem C1_single_point_lookup (g : ScoreGlobals) (input_json : String) (idv : Json)
    (hid : extractId input_json = .ok idv) (hclient : g.clientReady = true) :
    runOps g input_json =
      [.readDocument (documentLink (pyStr idv)) (pyStr idv)] := by
  simp [runOps, runInner, hid, hclient]

/-- C1 witness: the demonstration client's input decodes to id 496 and
`run` issues exactly one lookup keyed by it. -/
theorem C1_single_point_lookup_witness :
    extractId input_data = .ok (.str "496") ∧
      (⟨true, []⟩ : ScoreGlobals).clientReady = true ∧
      runOps ⟨true, []⟩ input_data =
        [.readDocument (documentLink (pyStr (.str "496"))) (pyStr (.str "496"))] :=
  ⟨rfl, rfl, C1_single_point_lookup ⟨true, []⟩ input_data (.str "496") rfl rfl⟩

/-- C2: on a successful lookup, `run` returns `json.dumps(str(result))`
of the document retrieved from the store. -/
theorem C2_returns_dumped_document (g : ScoreGlobals) (input_json : String)
    (idv doc : Json)
    (hid : extractId input_json = .ok idv) (hclient : g.clientReady = true)
    (hdoc : g.store.lookup (documentLink (pyStr idv)) = some doc) :
    run g input_json = json_dumps_str (pyStr doc) := by
  simp [run, runInner, ReadDocument, hid, hclient, hdoc]

/-- A stored document for user 496, used to exercise the lookup path. -/
def demoDoc : Json :=
  .obj [("id", .str "496"), ("MovieId", .arr [.num 320, .num 1589])]

/-- A store holding `demoDoc` under its document link. -/
def demoStore : DocStore :=
  [("dbs/recommendations/colls/user_recommendations_als/docs/496", demoDoc)]

/-- C2 witness: on the demonstration input and a store holding a document
for user 496, `run` returns the dumped stringified document. -/
theorem C2_returns_dumped_document_witness :
    extractId input_data = .ok (.str "496") ∧
      demoStore.lookup (documentLink (pyStr (.str "496"))) = some demoDoc ∧
      run ⟨true, demoStore⟩ input_data = json_dumps_str (pyStr demoDoc) :=
  ⟨rfl, rfl,
    C2_returns_dumped_document ⟨true, demoStore⟩ input_data (.str "496") demoDoc
      rfl rfl rfl⟩

/-- C3: the scoring script propagates no exception.  `run` always returns
a plain string — `json.dumps` of the stringified document on success and
`json.dumps(str(e))` on every exception `e` of its body — and `init`
always returns its globals normally, storing any exception raised during
client or collection setup in the `collection` global instead of raising. -/
theorem C3_exceptions_caught :
    (∀ (g : ScoreGlobals) (input_json : String),
        (∃ d, (runInner g input_json).1 = .ok d ∧
          run g input_json = json_dumps_str (pyStr d)) ∨
        (∃ e, (runInner g input_json).1 = .error e ∧
          run g input_json = json_dumps_str (pyErrStr e))) ∧
    (∀ env : InitEnv,
        (∃ c, init env = (true, .coll c)) ∨
        (∃ e, init env = (false, .caught e) ∨ init env = (true, .caught e))) := by
  constructor
  · intro g input_json
    cases h : (runInner g input_json).1 with
    | ok d => exact .inl ⟨d, rfl, by simp [run, h]⟩
    | error e => exact .inr ⟨e, rfl, by simp [run, h]⟩
  · intro env
    cases hc : env.documentClient with
    | error e => exact .inr ⟨e, .inl (by simp [init, hc])⟩
    | ok u =>
      cases hr : env.readCollection with
      | error e => exact .inr ⟨e, .inr (by simp [init, hc, hr])⟩
      | ok c => exact .inl ⟨c, by simp [init, hc, hr]⟩

/-- A row of `model.recommendForAllUsers(10)` output: a user id together
with its ordered recommendation list of (MovieId, score) entries.  The
score payload type is abstract; the external call's contract is that
each list holds at most 10 entries. -/
structure RecRow (σ : Type) where
  userId : Int
  recommendations : List (Int × σ)

/-- Cell 3.1:
`recs.withColumn("id", recs[userCol].cast("string")).select("id",
"recommendations." + itemCol)` — one persisted record per row, pairing
the user id cast to string with the ordered MovieId list. -/
def recsToRecords {σ : Type} (recs : List (RecRow σ)) : List (String × List Int) :=
  recs.map (fun r => (toString r.userId, r.recommendations.map Prod.fst))

/-- Cell 1.2 `secrets`: the write configuration persisted to the secrets
file and passed as `options` to the Cosmos DB Spark write. -/
def secrets (endpoint master_key : String) : List (String × String) :=
  [("Endpoint", endpoint), ("Masterkey", master_key),
   ("Database", DOCUMENTDB_DATABASE), ("Collection", DOCUMENTDB_COLLECTION),
   ("Upsert", "true")]

/-- Cell 3.1: the mode passed to `.mode('overwrite')`. -/
def writeMode : String := "overwrite"

/-- One upsert into the store keyed by `id`: an existing record with the
same id is replaced wholesale, otherwise the record is appended. -/
def upsertRecord : List (String × List Int) → String × List Int →
    List (String × List Int)
  | [], rec => [rec]
  | kv :: rest, rec =>
    if kv.1 = rec.1 then rec :: rest else kv :: upsertRecord rest rec

/-- The Cosmos DB Spark connector write with `Upsert: true`: every output
record is upserted in order. -/
def writeRecords (store : List (String × List Int))
    (recs : List (String × List Int)) : List (String × List Int) :=
  recs.foldl upsertRecord store

/-- Upserting a record makes it the record found under its key, whatever
was stored before: last write wins, wholesale. -/
theorem lookup_upsertRecord_self (store : List (String × List Int))
    (k : String) (v : List Int) :
    (upsertRecord store (k, v)).lookup k = some v := by
  induction store with
  | nil => simp [upsertRecord]
  | cons kv rest ih =>
    obtain ⟨a, b⟩ := kv
    by_cases hk : a = k
    · simp [upsertRecord, hk, List.lookup]
    · simp [upsertRecord, hk, List.lookup,
        beq_eq_false_iff_ne.mpr (Ne.symm hk), ih]

/-- C4: each persisted record pairs the user id cast to string with the
ordered MovieId list of that user's `recommendForAllUsers(10)` row (at
most 10 items under the call's contract); the write runs in `overwrite`
mode with `Upsert: true`; and an upsert replaces the record under the
user key wholesale — last write wins, no partial update. -/
theorem C4_record_shape_and_upsert {σ : Type} (recs : List (RecRow σ))
    (hcap : ∀ r ∈ recs, r.recommendations.length ≤ 10) :
    (∀ endpoint master_key,
        (secrets endpoint master_key).lookup "Upsert" = some "true") ∧
    writeMode = "overwrite" ∧
    (∀ rec ∈ recsToRecords recs, ∃ r ∈ recs,
        rec = (toString r.userId, r.recommendations.map Prod.fst) ∧
        rec.2.length ≤ 10) ∧
    (∀ (store : List (String × List Int)) (k : String) (v₁ v₂ : List Int),
        (upsertRecord (upsertRecord store (k, v₁)) (k, v₂)).lookup k = some v₂) := by
  refine ⟨fun _ _ => rfl, rfl, ?_, fun store k _ v₂ => lookup_upsertRecord_self _ k v₂⟩
  intro rec hrec
  obtain ⟨r, hr, hform⟩ := List.mem_map.mp hrec
  exact ⟨r, hr, hform.symm, by simpa [← hform] using hcap r hr⟩

/-- C4 witness: two concrete recommendation rows produce the expected
records, the write configuration carries overwrite mode and Upsert true,
and a second upsert for user 1 replaces the first record wholesale. -/
theorem C4_record_shape_and_upsert_witness :
    recsToRecords [(⟨1, [(10, ()), (20, ())]⟩ : RecRow Unit), ⟨2, [(30, ())]⟩] =
      [("1", [10, 20]), ("2", [30])] ∧
    writeMode = "overwrite" ∧
    (secrets "endpoint" "key").lookup "Upsert" = some "true" ∧
    (upsertRecord (upsertRecord [] ("1", [10, 20])) ("1", [99])).lookup "1" =
      some [99] :=
  ⟨by decide,
    (C4_record_shape_and_upsert
      [(⟨1, [(10, ()), (20, ())]⟩ : RecRow Unit), ⟨2, [(30, ())]⟩] (by decide)).2.1,
    (C4_record_shape_and_upsert
      [(⟨1, [(10, ()), (20, ())]⟩ : RecRow Unit), ⟨2, [(30, ())]⟩] (by decide)).1
      "endpoint" "key",
    (C4_record_shape_and_upsert
      [(⟨1, [(10, ()), (20, ())]⟩ : RecRow Unit), ⟨2, [(30, ())]⟩] (by decide)).2.2.2
      [] "1" [10, 20] [99]⟩

/-- State of the Cosmos DB account: the existing database ids and the
existing (database, collection) pairs. -/
structure CosmosState where
  databases : List String
  collections : List (String × String)
deriving DecidableEq

/-- Modelled from the spec: `find_database` (imported from
`reco_utils.dataset.cosmos_cli`, which is not under `src/`) — reports
whether a database with the given id already exists. -/
def find_database (s : CosmosState) (id : String) : Bool :=
  s.databases.contains id

/-- Modelled from the spec: `find_collection` (from
`reco_utils.dataset.cosmos_cli`, not under `src/`) — reports whether the
given collection already exists in the given database. -/
def find_collection (s : CosmosState) (db coll : String) : Bool :=
  s.collections.contains (db, coll)

/-- Modelled from the spec: `client.CreateDatabase` — creates the
database with the given id. -/
def CreateDatabase (s : CosmosState) (id : String) : CosmosState :=
  { s with databases := s.databases ++ [id] }

/-- Modelled from the spec: `client.CreateCollection` — creates the
collection in the given database. -/
def CreateCollection (s : CosmosState) (db coll : String) : CosmosState :=
  { s with collections := s.collections ++ [(db, coll)] }

/-- The action a provisioning branch performs: create the resource, or
read the existing one (`read_database` / `read_collection`, which leave
the account unchanged). -/
inductive ProvisionAction where
  | create (id : String)
  | read (id : String)
deriving DecidableEq

/-- Cell 1.2: `if find_database(client, DOCUMENTDB_DATABASE) == False:
db = client.CreateDatabase(...) else: db = read_database(...)`. -/
def provisionDatabase (s : CosmosState) : CosmosState × ProvisionAction :=
  if find_database s DOCUMENTDB_DATABASE = false then
    (CreateDatabase s DOCUMENTDB_DATABASE, .create DOCUMENTDB_DATABASE)
  else
    (s, .read DOCUMENTDB_DATABASE)

/-- Cell 1.2: `if find_collection(client, DOCUMENTDB_DATABASE,
DOCUMENTDB_COLLECTION) == False: collection = client.CreateCollection(...)
else: collection = read_collection(...)`. -/
def provisionCollection (s : CosmosState) : CosmosState × ProvisionAction :=
  if find_collection s DOCUMENTDB_DATABASE DOCUMENTDB_COLLECTION = false then
    (CreateCollection s DOCUMENTDB_DATABASE DOCUMENTDB_COLLECTION,
      .create DOCUMENTDB_COLLECTION)
  else
    (s, .read DOCUMENTDB_COLLECTION)

/-- The document-store provisioning part of the service-creation step:
the database branch followed by the collection branch, with the two
actions taken. -/
def serviceCreationStep (s : CosmosState) :
    CosmosState × ProvisionAction × ProvisionAction :=
  let (s1, a1) := provisionDatabase s
  let (s2, a2) := provisionCollection s1
  (s2, a1, a2)

/-- Outcome of the web-service deployment step. -/
inductive DeployOutcome where
  | deployed (name : String)
  | reusedFirstExisting (name : String)
deriving DecidableEq

/-- Cell 3.3.3: `try: aks_service = Webservice.deploy_from_image(...);
aks_service.wait_for_deployment(...) except Exception:
aks_service = Webservice.list(ws)[0]` — on any exception the step falls
back to the first existing web service in the workspace (itself an
IndexError when the workspace has none). -/
def deployStep (deployResult : Except PyErr Unit) (service_name : String)
    (existing : List String) : Except PyErr DeployOutcome :=
  match deployResult with
  | .ok _ => .ok (.deployed service_name)
  | .error _ =>
    match existing with
    | [] => .error (.indexError "list index out of range")
    | w :: _ => .ok (.reusedFirstExisting w)

/-- C5 counterexample: the claim that every operationalization step is a
single unconditional call fails — the provisioning step acts differently
on a state that already holds the database than on an empty state, and a
failed deployment is answered by reusing the first existing service
instead of propagating the failure. -/
theorem C5_counterexample :
    serviceCreationStep ⟨["recommendations"], []⟩ ≠ serviceCreationStep ⟨[], []⟩ ∧
    deployStep (.error (.httpFailure "deploy failed")) "mvl-als" ["existing-svc"] =
      .ok (.reusedFirstExisting "existing-svc") := by
  constructor
  · decide
  · rfl

/-- C5 amended: every operationalization step is a single call except
two: the database/collection provisioning step branches on existence —
it creates the database (collection) exactly when absent and reads it
exactly when present — and the web-service deployment step recovers from
a deployment exception by reusing the first existing web service. -/
theorem C5_amended_two_steps_branch (s : CosmosState) (e : PyErr)
    (nm w : String) (ws : List String) :
    (find_database s DOCUMENTDB_DATABASE = true →
        provisionDatabase s = (s, .read DOCUMENTDB_DATABASE)) ∧
    (find_database s DOCUMENTDB_DATABASE = false →
        provisionDatabase s =
          (CreateDatabase s DOCUMENTDB_DATABASE, .create DOCUMENTDB_DATABASE)) ∧
    (find_collection s DOCUMENTDB_DATABASE DOCUMENTDB_COLLECTION = true →
        provisionCollection s = (s, .read DOCUMENTDB_COLLECTION)) ∧
    (find_collection s DOCUMENTDB_DATABASE DOCUMENTDB_COLLECTION = false →
        provisionCollection s =
          (CreateCollection s DOCUMENTDB_DATABASE DOCUMENTDB_COLLECTION,
            .create DOCUMENTDB_COLLECTION)) ∧
    deployStep (.error e) nm (w :: ws) = .ok (.reusedFirstExisting w) ∧
    deployStep (.ok ()) nm ws = .ok (.deployed nm) := by
  refine ⟨fun h => ?_, fun h => ?_, fun h => ?_, fun h => ?_, rfl, rfl⟩ <;>
    simp [provisionDatabase, provisionCollection, h]

/-- C5 amended witness: on a state already holding the database but not
the collection, the step reads the database and creates the collection,
and a failed deployment reuses the existing service. -/
theorem C5_amended_two_steps_branch_witness :
    find_database ⟨["recommendations"], []⟩ DOCUMENTDB_DATABASE = true ∧
    provisionDatabase ⟨["recommendations"], []⟩ =
      (⟨["recommendations"], []⟩, .read DOCUMENTDB_DATABASE) ∧
    deployStep (.error (.httpFailure "x")) "mvl-als" ["svc0"] =
      .ok (.reusedFirstExisting "svc0") :=
  ⟨rfl,
    (C5_amended_two_steps_branch ⟨["recommendations"], []⟩ (.httpFailure "x")
      "mvl-als" "svc0" []).1 rfl,
    (C5_amended_two_steps_branch ⟨["recommendations"], []⟩ (.httpFailure "x")
      "mvl-als" "svc0" []).2.2.2.2.1⟩

/-- C8: re-running the provisioning step is idempotent on the document
store: after one run both resources exist, and a second run only reads —
it returns the same state with both actions being reads. -/
theorem C8_provisioning_idempotent (s : CosmosState) :
    serviceCreationStep (serviceCreationStep s).1 =
      ((serviceCreationStep s).1,
        .read DOCUMENTDB_DATABASE, .read DOCUMENTDB_COLLECTION) := by
  by_cases hdb : find_database s DOCUMENTDB_DATABASE = false <;>
    by_cases hcoll : find_collection s DOCUMENTDB_DATABASE DOCUMENTDB_COLLECTION = false <;>
    simp [serviceCreationStep, provisionDatabase, provisionCollection,
      find_database, find_collection, CreateDatabase, CreateCollection,
      hdb, hcoll] <;>
    simp_all [find_database, find_collection]

/-- The notebook's external operations and the blocking waits on them,
one constructor per step, in the notebook's source order. -/
inductive PipelineStep where
  | createWorkspace
  | startCosmosCreate
  | awaitCosmosCreate
  | listKeys
  | provisionDbAndCollection
  | fitModel
  | writeRecommendations
  | registerModel
  | createImage
  | awaitImageCreation
  | createAksCluster
  | awaitClusterCompletion
  | deployService
  | awaitDeployment
  | callService
deriving DecidableEq

/-- The notebook's straight-line execution order: `Workspace.create`,
`client.database_accounts.create_or_update`,
`async_cosmosdb_create.result()`, `list_keys`, the database/collection
provisioning, `als.fit`, the recommendation write, `Model.register`,
`ContainerImage.create`, `image.wait_for_creation`,
`ComputeTarget.create`, `aks_target.wait_for_completion`,
`Webservice.deploy_from_image`, `aks_service.wait_for_deployment`, and
the HTTP call to the service. -/
def pipeline : List PipelineStep :=
  [.createWorkspace, .startCosmosCreate, .awaitCosmosCreate, .listKeys,
   .provisionDbAndCollection, .fitModel, .writeRecommendations, .registerModel,
   .createImage, .awaitImageCreation, .createAksCluster, .awaitClusterCompletion,
   .deployService, .awaitDeployment, .callService]

/-- C6: the pipeline is one linear sequence (each step occurs once) in
which every external operation is awaited before the next step: the
Cosmos DB account creation is awaited via `.result()` before keys are
listed, image creation is awaited before cluster provisioning, cluster
provisioning is awaited before deployment, and deployment is awaited
before the service is called. -/
theorem C6_blocking_pipeline_order :
    pipeline.Nodup ∧
    pipeline.indexOf PipelineStep.startCosmosCreate <
      pipeline.indexOf PipelineStep.awaitCosmosCreate ∧
    pipeline.indexOf PipelineStep.awaitCosmosCreate <
      pipeline.indexOf PipelineStep.listKeys ∧
    pipeline.indexOf PipelineStep.createImage <
      pipeline.indexOf PipelineStep.awaitImageCreation ∧
    pipeline.indexOf PipelineStep.awaitImageCreation <
      pipeline.indexOf PipelineStep.createAksCluster ∧
    pipeline.indexOf PipelineStep.createAksCluster <
      pipeline.indexOf PipelineStep.awaitClusterCompletion ∧
    pipeline.indexOf PipelineStep.awaitClusterCompletion <
      pipeline.indexOf PipelineStep.deployService ∧
    pipeline.indexOf PipelineStep.deployService <
      pipeline.indexOf PipelineStep.awaitDeployment ∧
    pipeline.indexOf PipelineStep.awaitDeployment <
      pipeline.indexOf PipelineStep.callService := by
  decide

/-- Cell 1: `prefix = "reco" + short_uuid`, where
`short_uuid = str(uuid.uuid4())[:4]`.  Strings are modelled as character
lists; the source variable is a Lean keyword, hence the name `pfx`. -/
def pfx (short_uuid : List Char) : List Char :=
  "reco".data ++ short_uuid

/-- Cell 1: `resource_group = prefix + "_" + data` with `data = "mvl"`. -/
def resource_group (short_uuid : List Char) : List Char :=
  pfx short_uuid ++ "_".data ++ "mvl".data

/-- Python `str.replace("_", "-")` for the one-character pattern. -/
def replaceUnderscore (s : List Char) : List Char :=
  s.map (fun c => if c = '_' then '-' else c)

/-- Cell 1: `account_name = resource_group + "-ds-sql"` followed by
`account_name = account_name.replace("_","-")[0:min(31,len(prefix))]`. -/
def account_name (short_uuid : List Char) : List Char :=
  (replaceUnderscore (resource_group short_uuid ++ "-ds-sql".data)).take
    (min 31 (pfx short_uuid).length)

/-- C9: with a 4-character uuid fragment the computed account name has
length exactly `min 31 (len prefix) = 8`, holds no underscore, and is
exactly the underscore-replaced prefix — the `-ds-sql` suffix and the
resource-group remainder are always truncated away. -/
theorem C9_account_name_truncates_suffix (short_uuid : List Char)
    (h : short_uuid.length = 4) :
    (account_name short_uuid).length = 8 ∧
    min 31 (pfx short_uuid).length = 8 ∧
    '_' ∉ account_name short_uuid ∧
    account_name short_uuid = replaceUnderscore (pfx short_uuid) := by
  have hlen : (pfx short_uuid).length = 8 := by
    simp [pfx, h]
  have hmin : min 31 (pfx short_uuid).length = 8 := by
    rw [hlen]
    decide
  have heq : account_name short_uuid = replaceUnderscore (pfx short_uuid) := by
    unfold account_name resource_group replaceUnderscore
    rw [hmin]
    rw [List.append_assoc, List.append_assoc, List.map_append]
    rw [List.take_append_of_le_length (by simp [hlen.symm, pfx])]
    rw [List.take_of_length_le (by simp [hlen.symm, pfx])]
  have hlen2 : (account_name short_uuid).length = 8 := by
    rw [heq]
    simpa [replaceUnderscore] using hlen
  refine ⟨hlen2, hmin, ?_, heq⟩
  rw [heq]
  intro hmem
  obtain ⟨c, _, hc⟩ := List.mem_map.mp hmem
  by_cases hcu : c = '_' <;> simp [hcu] at hc

/-- C9 witness: the concrete uuid fragment `ab12` gives the 8-character,
underscore-free account name `recoab12`. -/
theorem C9_account_name_truncates_suffix_witness :
    "ab12".data.length = 4 ∧
    ((account_name "ab12".data).length = 8 ∧
      min 31 (pfx "ab12".data).length = 8 ∧
      '_' ∉ account_name "ab12".data ∧
      account_name "ab12".data = replaceUnderscore (pfx "ab12".data)) :=
  ⟨rfl, C9_account_name_truncates_suffix "ab12".data rfl⟩

/-- Modelled from the spec: `spark_random_split` (imported from
`reco_utils.dataset.spark_splitters`, which is not under `src/`).  The
spec describes it as train/test partitioning of rating records; it is
modelled as Spark's seeded per-record Bernoulli assignment: each record
receives a pseudo-random draw derived from the seed and its key, and
goes to the train split when the draw falls below the ratio. -/
def assignTrain (seed ratioNum ratioDen : Nat) (key : Nat) : Bool :=
  (seed * 6364136223846793005 + key * 1442695040888963407) % 2 ^ 64 % ratioDen
    < ratioNum

/-- Modelled from the spec: the split itself — the train split keeps the
records whose draw is below the ratio, the test split the others.
`ratio=0.75` is the pair `(3, 4)`, `seed=42` the seed. -/
def spark_random_split {α : Type} (seed ratioNum ratioDen : Nat) (key : α → Nat)
    (records : List α) : List α × List α :=
  (records.filter (fun r => assignTrain seed ratioNum ratioDen (key r)),
   records.filter (fun r => !assignTrain seed ratioNum ratioDen (key r)))

/-- C7: the random split with ratio 0.75 and seed 42 partitions the
rating records — train and test together are a permutation of the input,
and every record lands in exactly one of the two splits. -/
theorem C7_split_partitions {α : Type} [DecidableEq α] (key : α → Nat)
    (records : List α) :
    List.Perm
      ((spark_random_split 42 3 4 key records).1 ++
        (spark_random_split 42 3 4 key records).2) records ∧
    ∀ r ∈ records,
      (r ∈ (spark_random_split 42 3 4 key records).1 ∧
        r ∉ (spark_random_split 42 3 4 key records).2) ∨
      (r ∉ (spark_random_split 42 3 4 key records).1 ∧
        r ∈ (spark_random_split 42 3 4 key records).2) := by
  constructor
  · exact List.filter_append_perm _ records
  · intro r hr
    by_cases ha : assignTrain 42 3 4 (key r)
    · exact .inl ⟨List.mem_filter.mpr ⟨hr, ha⟩,
        fun hmem => by simpa [ha] using (List.mem_filter.mp hmem).2⟩
    · exact .inr ⟨fun hmem => by simpa [ha] using (List.mem_filter.mp hmem).2,
        List.mem_filter.mpr ⟨hr, by simpa using ha⟩⟩

/-- C7 witness: on the concrete keys 1..4, the record 1 is in the input
and lands in exactly one of the two splits. -/
theorem C7_split_partitions_witness :
    (1 : Nat) ∈ [1, 2, 3, 4] ∧
      ((1 ∈ (spark_random_split 42 3 4 id [1, 2, 3, 4]).1 ∧
        1 ∉ (spark_random_split 42 3 4 id [1, 2, 3, 4]).2) ∨
       (1 ∉ (spark_random_split 42 3 4 id [1, 2, 3, 4]).1 ∧
        1 ∈ (spark_random_split 42 3 4 id [1, 2, 3, 4]).2)) :=
  ⟨by decide, (C7_split_partitions id [1, 2, 3, 4]).2 1 (by decide)⟩

/-- A training row as the exclusion join sees it: user, item, and the
nullable rating column; the rating payload type is abstract (ratings are
floats in the source). -/
structure TrainRow (ρ : Type) where
  userId : Int
  movieId : Int
  rating : Option ρ
deriving DecidableEq

/-- A row of `dfs_pred = model.transform(user_item)`: user, item, and
the external ALS model's score (abstract payload). -/
structure PredRow (σ : Type) where
  userId : Int
  movieId : Int
  prediction : σ
deriving DecidableEq

/-- Cell 2.3: `users = train.select('UserId').distinct()`. -/
def distinctUsers {ρ : Type} (train : List (TrainRow ρ)) : List Int :=
  (train.map (fun t => t.userId)).dedup

/-- Cell 2.3: `items = train.select('MovieId').distinct()`. -/
def distinctItems {ρ : Type} (train : List (TrainRow ρ)) : List Int :=
  (train.map (fun t => t.movieId)).dedup

/-- Cell 2.3: `user_item = users.crossJoin(items)`. -/
def user_item {ρ : Type} (train : List (TrainRow ρ)) : List (Int × Int) :=
  (distinctUsers train).flatMap
    (fun u => (distinctItems train).map (fun i => (u, i)))

/-- Cell 2.3: `dfs_pred = model.transform(user_item)` — the external
model scores every user-item pair. -/
def dfs_pred {ρ σ : Type} (score : Int → Int → σ) (train : List (TrainRow ρ)) :
    List (PredRow σ) :=
  (user_item train).map (fun p => ⟨p.1, p.2, score p.1 p.2⟩)

/-- The outer join condition
`(dfs_pred.UserId == train.UserId) & (dfs_pred.MovieId == train.MovieId)`. -/
def keyMatch {ρ σ : Type} (p : PredRow σ) (t : TrainRow ρ) : Bool :=
  p.userId == t.userId && p.movieId == t.movieId

/-- Cell 2.3: the full outer join `dfs_pred.alias("pred").join(
train.alias("train"), ..., how='outer')`: every pred row paired with
each matching train row (or with a null train side when unmatched), plus
the train rows no pred row matches, with a null pred side. -/
def dfs_pred_exclude_train {ρ σ : Type} (pred : List (PredRow σ))
    (train : List (TrainRow ρ)) :
    List (Option (PredRow σ) × Option (TrainRow ρ)) :=
  pred.flatMap (fun p =>
    match train.filter (fun t => keyMatch p t) with
    | [] => [(some p, none)]
    | ms => ms.map (fun t => (some p, some t)))
  ++ (train.filter (fun t => pred.all (fun p => !keyMatch p t))).map
      (fun t => (none, some t))

/-- Spark `isNull` on the joined row's `train.Rating` column: null when
the train side is absent or its rating field is null. -/
def trainRatingIsNull {ρ σ : Type}
    (row : Option (PredRow σ) × Option (TrainRow ρ)) : Bool :=
  match row.2 with
  | none => true
  | some t => t.rating.isNone

/-- Cell 2.3: `top_all = dfs_pred_exclude_train.filter(
dfs_pred_exclude_train["train.Rating"].isNull()).select('pred.UserId',
'pred.MovieId', 'pred.prediction')`; selecting from a null pred side
yields nulls. -/
def top_all {ρ σ : Type} (score : Int → Int → σ) (train : List (TrainRow ρ)) :
    List (Option Int × Option Int × Option σ) :=
  ((dfs_pred_exclude_train (dfs_pred score train) train).filter
      trainRatingIsNull).map
    (fun row =>
      match row.1 with
      | some p => (some p.userId, some p.movieId, some p.prediction)
      | none => (none, none, none))

/-- C10: when every training record carries a non-null rating, `top_all`
excludes all seen items — no (UserId, MovieId) pair appearing in
`top_all` is a (UserId, MovieId) pair of a training row. -/
theorem C10_top_all_excludes_seen {ρ σ : Type} (score : Int → Int → σ)
    (train : List (TrainRow ρ)) (hnn : ∀ t ∈ train, t.rating.isSome)
    (u m : Int) (pv : Option σ)
    (hmem : (some u, some m, pv) ∈ top_all score train) :
    ∀ t ∈ train, ¬(t.userId = u ∧ t.movieId = m) := by
  rintro t ht ⟨htu, htm⟩
  unfold top_all at hmem
  obtain ⟨row, hrow, hsel⟩ := List.mem_map.mp hmem
  obtain ⟨hjoin, hnull⟩ := List.mem_filter.mp hrow
  obtain ⟨op, ot⟩ := row
  cases op with
  | none => simp at hsel
  | some p =>
    simp only at hsel
    injection hsel with hpu hsel
    injection hsel with hpm hpv
    injection hpu with hpu
    injection hpm with hpm
    rcases List.mem_append.mp hjoin with hA | hB
    · obtain ⟨p', hp', hrowp⟩ := List.mem_flatMap.mp hA
      cases hfil : train.filter (fun t' => keyMatch p' t') with
      | nil =>
        rw [hfil] at hrowp
        simp only [List.mem_singleton] at hrowp
        injection hrowp with hpp hot
        injection hpp with hpp
        have htfil : t ∈ train.filter (fun t' => keyMatch p' t') :=
          List.mem_filter.mpr ⟨ht, by
            simp [keyMatch, htu, htm]
            exact ⟨hpp ▸ hpu, hpp ▸ hpm⟩⟩
        rw [hfil] at htfil
        simp at htfil
      | cons t0 ts =>
        rw [hfil] at hrowp
        simp only [List.mem_map] at hrowp
        obtain ⟨t1, ht1, heq⟩ := hrowp
        injection heq with hpp hot
        have ht1train : t1 ∈ train.filter (fun t' => keyMatch p' t') := by
          rw [hfil]; exact ht1
        have ht1mem : t1 ∈ train := (List.mem_filter.mp ht1train).1
        have hnone : t1.rating.isNone := by
          simpa [trainRatingIsNull, ← hot] using hnull
        have hsome : t1.rating.isSome := hnn t1 ht1mem
        rw [Option.isNone_iff_eq_none.mp hnone] at hsome
        simp at hsome
    · obtain ⟨t2, ht2, heq⟩ := List.mem_map.mp hB
      injection heq with hbad
      exact Option.noConfusion hbad

/-- A two-user training set with non-null ratings, used to exercise the
exclusion join. -/
def trainW : List (TrainRow Unit) := [⟨1, 10, some ()⟩, ⟨2, 20, some ()⟩]

/-- A trivial score payload standing in for the external model. -/
def scoreW : Int → Int → Unit := fun _ _ => ()

/-- C10 witness: on the two-row training set, `top_all` contains the
unseen pair (1, 20), and that pair is not a training pair. -/
theorem C10_top_all_excludes_seen_witness :
    (some 1, some 20, some ()) ∈ top_all scoreW trainW ∧
    ¬((⟨1, 10, some ()⟩ : TrainRow Unit).userId = 1 ∧
      (⟨1, 10, some ()⟩ : TrainRow Unit).movieId = 20) :=
  ⟨by decide,
    C10_top_all_excludes_seen scoreW trainW (by decide) 1 20 (some ())
      (by decide) ⟨1, 10, some ()⟩ (by decide)⟩

end RecoO16n
